import Mathlib

/-!
Shallow embedding of the rv7 kernel's physical frame allocator, page-table
manager, local-APIC driver, MP bring-up callback, ACPI MADT walker and HPET
sleep primitive, with theorems settling the frozen specification claims.

Conventions of the embedding:
* machine integers are `Nat` (with explicit `% 2^w` truncation where the C
  code can overflow or a narrowing store occurs);
* global mutable state is passed explicitly as structures;
* physical memory holding page tables is a function from 64-bit word index
  (byte address divided by 8) to the stored 64-bit value;
* spinlock acquire/release pairs (`mu_spinlock_acq`/`mu_spinlock_rel`) only
  serialize access and have no effect on the guarded data, so they are
  elided from the sequential embedding;
* fallible paths that `panic` in C are modelled with `Option` (`none` =
  panic), and error returns use `Int` error codes.
-/

namespace RV7

/-- Errno constants. Modelled from the spec: `sys/errno.h` is not among the
provided sources; the spec only requires distinguished failure values
(`-EINVAL`, `-ENOMEM`, `-ENODEV`), so the conventional BSD numbers are used;
only their identity matters. -/
def EINVAL : Int := 22

/-- Errno: out of memory. Modelled from the spec (see `EINVAL`). -/
def ENOMEM : Int := 12

/-- Errno: no such device. Modelled from the spec (see `EINVAL`). -/
def ENODEV : Int := 19

/-- `PAGESIZE` from `sys/param.h`: the spec fixes frames at 4096 bytes. -/
def PAGESIZE : Nat := 4096

/-- `ALIGN_DOWN(x, a)` for a power-of-two alignment `a`. -/
def alignDown (x a : Nat) : Nat := (x / a) * a

/-- `ALIGN_UP(x, a)` for a power-of-two alignment `a`. -/
def alignUp (x a : Nat) : Nat := ((x + a - 1) / a) * a

/-!
## Physical frame allocator (`src/sys/vm/vm_map.c`, second unit)

The allocator state consists of the global bitmap (one `Bool` per frame
index, `true` = allocated/reserved), the scan cursor `last_index`, and the
`highest_usable` physical address computed by `vm_probe`.
-/

/-- The allocator's global mutable state: `bitmap`, `last_index`,
`highest_usable` from `vm_map.c`. -/
structure PhysState where
  bitmap : Nat → Bool
  lastIndex : Nat
  highestUsable : Nat

/-- `bitmap_set_range(start, end, alloc)`: clamps the range to page
boundaries (`ALIGN_DOWN`/`ALIGN_UP`) and sets or clears the bit `p/PAGESIZE`
for every page `p` in `[start, end)`; expressed as the resulting bitmap. -/
def bitmap_set_range (bm : Nat → Bool) (start end_ : Nat) (alloc : Bool) :
    Nat → Bool :=
  fun i =>
    if alignDown start PAGESIZE / PAGESIZE ≤ i ∧
        i < alignUp end_ PAGESIZE / PAGESIZE then alloc else bm i

/-- The scan loop inside `__vm_phys_alloc`: iterate `i` upward (the `fuel`
argument is `max_index - i`, so the loop exits when it reaches 0), tracking
`frames_found` and `index_start` (`none` models `index_start = -1`).
Faithful to the source: `frames_found` is NOT reset when a set bit
interrupts a run, the loop breaks as soon as `frames_found` reaches
`count`, and the final `index_start` is returned even if the trailing run
was shorter than `count`. -/
def vm_scan (bm : Nat → Bool) (count : Nat) :
    Nat → Nat → Nat → Option Nat → Option Nat
  | 0, _, _, idxStart => idxStart
  | fuel + 1, i, framesFound, idxStart =>
    if bm i = false then
      let idxStart' := some (idxStart.getD i)
      if count ≤ framesFound + 1 then idxStart'
      else vm_scan bm count fuel (i + 1) (framesFound + 1) idxStart'
    else vm_scan bm count fuel (i + 1) framesFound none

/-- `__vm_phys_alloc(count)`: lockless scan from `last_index` up to
`highest_usable / PAGESIZE`; on a hit, marks
`[index_start*PAGESIZE, index_start*PAGESIZE + count*PAGESIZE)` allocated
via `bitmap_set_range` and returns the base address, else returns 0.
`last_index` is not modified here (as in the source). -/
def __vm_phys_alloc (st : PhysState) (count : Nat) : Nat × PhysState :=
  let maxIndex := st.highestUsable / PAGESIZE
  let idxStart := vm_scan st.bitmap count (maxIndex - st.lastIndex)
      st.lastIndex 0 none
  match idxStart with
  | none => (0, st)
  | some s =>
    let start := s * PAGESIZE
    let end_ := start + count * PAGESIZE
    (start, { st with bitmap := bitmap_set_range st.bitmap start end_ true })

/-- `vm_phys_free(base, count)`: aligns `base` down and clears
`count` pages starting there (spinlock elided). -/
def vm_phys_free (st : PhysState) (base count : Nat) : PhysState :=
  let base' := alignDown base PAGESIZE
  let end_ := base' + count * PAGESIZE
  { st with bitmap := bitmap_set_range st.bitmap base' end_ false }

/-- `vm_phys_alloc(count)`: tries `__vm_phys_alloc`; if it reports 0,
resets `last_index` to 0 and retries exactly once (spinlock elided). -/
def vm_phys_alloc (st : PhysState) (count : Nat) : Nat × PhysState :=
  let r := __vm_phys_alloc st count
  if r.1 = 0 then __vm_phys_alloc { r.2 with lastIndex := 0 } count
  else r

/-- A 5-usable-frame allocator state whose frames 0, 2 and 4 are already
allocated; frames 1 and 3 are free. Exercises the interrupted-run path of
the scan. -/
def physEx1 : PhysState :=
  { bitmap := fun i => i == 0 || i == 2 || i == 4
    lastIndex := 0
    highestUsable := 5 * 4096 }

/-!
## Page-table manager (`src/unnamed/part_001`)

`struct mmu_vas` holds the physical address of the top-level table (`cr3`).
Physical memory holding the tables is a function from 64-bit word index
(byte address / 8) to stored value: entry `i` of the table based at
page-aligned physical address `b` lives at word index `b/8 + i`.
`PHYS_TO_VIRT` is a bijection and is elided. The local-TLB invalidation
(`pmap_invlpg`) has no effect on the modelled memory and is elided.
-/

/-- `struct mmu_vas` from `md/vas.h`: the top-level-table physical address. -/
structure MmuVas where
  cr3 : Nat
deriving DecidableEq

/-- Combined machine state for the page-table manager: the frame
allocator's state, table memory (word-indexed), and the CR3 register read
by `mu_pmap_readvas`. -/
structure PmapState where
  phys : PhysState
  mem : Nat → Nat
  cr3reg : Nat

/-- `PTE_ADDR_MASK` (Intel SDM Vol 3A table 4-19). -/
def PTE_ADDR_MASK : Nat := 0x000FFFFFFFFFF000

/-- `PTE_P` present bit. -/
def PTE_P : Nat := 1

/-- `PTE_RW` writable bit. -/
def PTE_RW : Nat := 2

/-- `PTE_US` user bit. -/
def PTE_US : Nat := 4

/-- `PTE_NX` execute-disable bit (bit 63). -/
def PTE_NX : Nat := 2 ^ 63

/-- The abstract protection set passed as `uint16_t prot`: the source only
tests the `PROT_WRITE`, `PROT_EXEC` and `PROT_USER` bits (whose numeric
positions live in a header not among the sources), so the set is modelled
as three booleans. -/
structure Prot where
  write : Bool
  exec : Bool
  user : Bool
deriving DecidableEq

/-- `pmap_prot_conv(prot)`: starts from `PTE_P | PTE_NX`, ORs in `PTE_RW`
for write, clears `PTE_NX` for exec, ORs in `PTE_US` for user. -/
def pmap_prot_conv (prot : Prot) : Nat :=
  let pte := PTE_P ||| PTE_NX
  let pte := if prot.write then pte ||| PTE_RW else pte
  let pte := if prot.exec then pte &&& (2 ^ 63 - 1) else pte
  if prot.user then pte ||| PTE_US else pte

/-- `pmap_get_index(va, level)` with `PMAP_PML1..PMAP_PML4 = 0..3`. -/
def pmap_get_index (va : Nat) (level : Nat) : Nat :=
  match level with
  | 3 => (va >>> 39) &&& 0x1FF
  | 2 => (va >>> 30) &&& 0x1FF
  | 1 => (va >>> 21) &&& 0x1FF
  | _ => (va >>> 12) &&& 0x1FF

/-- The `memset(tmp, 0, 4096)` of a freshly allocated table: zero the 512
words of the page based at `base`. -/
def zero_table (mem : Nat → Nat) (base : Nat) : Nat → Nat :=
  fun q => if base / 8 ≤ q ∧ q < base / 8 + 512 then 0 else mem q

/-- A single 64-bit store `table[index] = v` into the table based at
`base`. -/
def write_entry (mem : Nat → Nat) (base index v : Nat) : Nat → Nat :=
  fun q => if q = base / 8 + index then v else mem q

/-- The `while ((curlvl--) > lvl)` loop of `pmap_get_level`, structural on
`curlvl`. Faithful to the source: when the entry at the current level is
present the function RETURNS the next-level table immediately (it does not
continue the descent); otherwise, if allocation is enabled, it allocates a
table with `vm_phys_alloc(1)`, zeroes it, links it with `P|RW|US` and
recurses into it. -/
def pmap_descend (va : Nat) (enAlloc : Bool) (lvl : Nat) :
    Nat → Nat → PmapState → Option Nat × PmapState
  | 0, pmapBase, k => (some pmapBase, k)
  | c + 1, pmapBase, k =>
    if lvl ≤ c then
      let index := pmap_get_index va c
      let e := k.mem (pmapBase / 8 + index)
      if e &&& PTE_P = 1 then (some (e &&& PTE_ADDR_MASK), k)
      else if enAlloc = false then (none, k)
      else
        let r := vm_phys_alloc k.phys 1
        if r.1 = 0 then (none, { k with phys := r.2 })
        else
          let mem1 := zero_table k.mem r.1
          let mem2 := write_entry mem1 pmapBase index
              (r.1 ||| (PTE_P ||| PTE_RW ||| PTE_US))
          pmap_descend va enAlloc lvl c r.1
            { phys := r.2, mem := mem2, cr3reg := k.cr3reg }
    else (some pmapBase, k)

/-- `pmap_get_level(vas, va, en_alloc, lvl)`: NULL check, then iterative
descent starting from `vas->cr3` at `curlvl = PMAP_PML4` (3). Returns the
reached table's physical base (the source returns its virtual alias). -/
def pmap_get_level (k : PmapState) (vas : Option MmuVas) (va : Nat)
    (enAlloc : Bool) (lvl : Nat) : Option Nat × PmapState :=
  match vas with
  | none => (none, k)
  | some v => pmap_descend va enAlloc lvl 3 v.cr3 k

/-- `mu_pmap_map(vas, pa, va, prot, ps)`: argument checks, descent to
`PMAP_PML1` with allocation enabled, then the leaf store
`pgtbl[pmap_get_index(va, PMAP_PML1)] = pa | pmap_prot_conv(prot)`
(`pmap_invlpg` elided). -/
def mu_pmap_map (k : PmapState) (vas : Option MmuVas) (pa va : Nat)
    (prot : Prot) (ps : Nat) : Int × PmapState :=
  if vas = none ∨ ps > 3 then (-EINVAL, k)
  else
    let r := pmap_get_level k vas va true 0
    match r with
    | (none, k') => (-ENOMEM, k')
    | (some tbl, k') =>
      let index := pmap_get_index va 0
      let flags := pmap_prot_conv prot
      (0, { k' with mem := write_entry k'.mem tbl index (pa ||| flags) })

/-- `mu_pmap_forkvas(result)`: reads the current CR3, allocates one page
for the new top-level table (`-ENOMEM` on failure), zeroes its lower 256
entries and copies entries 256..511 from the current top-level table.
Faithful to the source: the `result` parameter is returned unchanged (the
source never stores to it). -/
def mu_pmap_forkvas (k : PmapState) (result : MmuVas) :
    Int × PmapState × MmuVas :=
  let vas : MmuVas := ⟨k.cr3reg⟩
  let r := vm_phys_alloc k.phys 1
  if r.1 = 0 then (-ENOMEM, { k with phys := r.2 }, result)
  else
    let dst := r.1
    let mem' := fun q =>
      if dst / 8 ≤ q ∧ q < dst / 8 + 512 then
        if q - dst / 8 < 256 then 0 else k.mem (vas.cr3 / 8 + (q - dst / 8))
      else k.mem q
    (0, { k with phys := r.2, mem := mem' }, result)

/-!
## Local APIC driver (`src/sys/arch/amd64/cpu/lapic.c`)

Register accesses are modelled as a trace of events over an abstract
register file `regs : Nat → Nat` keyed by the xAPIC register offset (the
x2APIC MSR alias `0x800 + (reg >> 4)` is a bijection of the offsets, so
the same key is used in both modes). In xAPIC mode `lapic_read` goes
through `mmio_read32` (32-bit) and `lapic_write` through `mmio_write32`
(truncating store); in x2APIC mode both are full 64-bit MSR accesses.
-/

/-- `LAPIC_REG_ICRLO`. -/
def LAPIC_REG_ICRLO : Nat := 0x300

/-- `LAPIC_REG_ICRHI`. -/
def LAPIC_REG_ICRHI : Nat := 0x310

/-- `IPI_SHAND_NONE` (enum `ipi_shand_t`). -/
def IPI_SHAND_NONE : Nat := 0

/-- `IPI_SHAND_SELF` (enum `ipi_shand_t`). -/
def IPI_SHAND_SELF : Nat := 1

/-- `IPI_DELMOD_INIT` (enum `ipi_delmod_t`). -/
def IPI_DELMOD_INIT : Nat := 5

/-- `IPI_DELMOD_STARTUP` (enum `ipi_delmod_t`). -/
def IPI_DELMOD_STARTUP : Nat := 6

/-- The per-processor machine control block: only the addressing-mode flag
`has_x2apic` is consulted by `lapic_send_ipi`. -/
structure Mcb where
  has_x2apic : Bool
deriving DecidableEq

/-- `struct lapic_ipi`: the inter-processor-signal descriptor. -/
structure LapicIpi where
  dest_id : Nat
  vector : Nat
  delmod : Nat
  shorthand : Nat
  logical_dest : Nat
deriving DecidableEq

/-- One observable LAPIC hardware access: a register read or write through
the `lapic_read`/`lapic_write` pair, the dedicated x2APIC SELF-IPI MSR
write, or the xAPIC delivery-status poll loop (`lapic_ipi_poll`). -/
inductive LapicEv
  | readReg (reg val : Nat)
  | writeReg (reg val : Nat)
  | wrmsrSelfIpi (val : Nat)
  | pollIcr
deriving DecidableEq

/-- `lapic_read(mcb, reg)`: 64-bit `rdmsr` in x2APIC mode, 32-bit
`mmio_read32` in xAPIC mode. -/
def lapic_read (mcb : Mcb) (regs : Nat → Nat) (reg : Nat) : Nat :=
  if mcb.has_x2apic then regs reg % 2 ^ 64 else regs reg % 2 ^ 32

/-- The event recorded by `lapic_write(mcb, reg, val)`: full 64-bit
`wrmsr` in x2APIC mode, truncating `mmio_write32` in xAPIC mode. -/
def lapic_write_ev (mcb : Mcb) (reg val : Nat) : LapicEv :=
  if mcb.has_x2apic then .writeReg reg (val % 2 ^ 64)
  else .writeReg reg (val % 2 ^ 32)

/-- `lapic_send_ipi(mcb, ipi)`: returns the status code, the final value of
the caller's descriptor (`ipi` is passed by pointer and may be mutated),
and the trace of hardware accesses. Faithful to the source: the
SELF+x2APIC shorthand writes only the dedicated self-IPI MSR; otherwise the
destination id is clamped to 8 bits in xAPIC mode, the ICR high/low halves
are encoded and written, and in xAPIC mode the delivery-status bit is
polled after the low write. -/
def lapic_send_ipi (mcb : Mcb) (regs : Nat → Nat) (ipi : Option LapicIpi) :
    Int × Option LapicIpi × List LapicEv :=
  match ipi with
  | none => (-EINVAL, none, [])
  | some p =>
    if p.shorthand = IPI_SHAND_SELF ∧ mcb.has_x2apic then
      (0, some p, [.wrmsrSelfIpi p.vector])
    else
      let p1 := if mcb.has_x2apic then p
        else { p with dest_id := p.dest_id &&& 0xFF }
      if mcb.has_x2apic = false then
        let hi0 := lapic_read mcb regs LAPIC_REG_ICRHI
        let hi1 := ((hi0 &&& (2 ^ 64 - 1 - (0xFF <<< 56))) |||
            (p1.dest_id <<< 56)) % 2 ^ 64
        let lo0 := lapic_read mcb regs LAPIC_REG_ICRLO
        let lo1 := lo0 ||| p1.vector ||| (p1.delmod <<< 8) |||
            (p1.logical_dest <<< 11) ||| (p1.shorthand <<< 18)
        (0, some p1,
          [.readReg LAPIC_REG_ICRHI hi0,
           lapic_write_ev mcb LAPIC_REG_ICRHI hi1,
           .readReg LAPIC_REG_ICRLO lo0,
           lapic_write_ev mcb LAPIC_REG_ICRLO lo1,
           .pollIcr])
      else
        let lo0 := lapic_read mcb regs LAPIC_REG_ICRLO
        let loz := (p1.dest_id <<< 32) % 2 ^ 64
        let lo1 := loz ||| p1.vector ||| (p1.delmod <<< 8) |||
            (p1.logical_dest <<< 11) ||| (p1.shorthand <<< 18)
        (0, some p1,
          [.readReg LAPIC_REG_ICRLO lo0,
           lapic_write_ev mcb LAPIC_REG_ICRLO lo1])

/-!
## MP bring-up discovery callback (`src/sys/arch/amd64/cpu/mp.c`)

`cpu_lapic_cb` is modelled with an explicit event trace for its side
effects (stack allocation, bring-up-descriptor stores, IPIs, settle
delays, the busy-wait on the ready flag). The `panic` branches
(`cpu_self() == NULL`, stack allocation failure) yield `none`; `cpu_self`
itself is assumed to succeed, as it does once the primary processor's
record exists.
-/

/-- `MAX_CPUS` from `mp.c`. -/
def MAX_CPUS : Nat := 256

/-- `AP_BUA_PADDR`: physical base of the bring-up (startup-routine) page. -/
def AP_BUA_PADDR : Nat := 0x8000

/-- `KERN_BASE`. Modelled from the spec: the higher-half direct-map base
constant lives in `vm/vm.h`, which is not among the sources; its exact
value is irrelevant to the claims (it only offsets the new stack pointer). -/
def KERN_BASE : Nat := 0xFFFF800000000000

/-- The (link-time) address of `cpu_lm_entry`. Modelled from the spec: a
fixed code address whose value is irrelevant to the claims. -/
def cpu_lm_entry_addr : Nat := 0

/-- `struct local_apic`: the MADT-described processor record fields used by
the callback (`apic_id`, `flags`). -/
structure LocalApic where
  apic_id : Nat
  flags : Nat
deriving DecidableEq

/-- One observable effect of the bring-up callback. -/
inductive MpEvent
  | allocStack (base : Nat)
  | budaWrite (rsp lmEntry cr3 : Nat)
  | sendIpi (destId vector delmod shorthand : Nat)
  | sleepMs (ms : Nat)
  | waitBooted
deriving DecidableEq

/-- The bring-up controller's global state seen by the callback: the frame
allocator, the bootstrap top-level table `bs.pml4`, and `ap_count`. -/
structure MpState where
  phys : PhysState
  bsPml4 : Nat
  apCount : Nat

/-- `cpu_lapic_cb(h, arg)` (the MADT enumeration callback in `mp.c`):
skips itself (`apic_id == arg`) and non-online-capable entries
(`!ISSET(flags, 0x3)`) by returning -1 with no side effects; otherwise
allocates a stack (panicking on failure, modelled as `none`), fills the
bring-up descriptor, sends one INIT and two STARTUP signals with the
settle delays, busy-waits on the ready flag, increments `ap_count` and
returns 0 to stop enumeration once `MAX_CPUS - 1` is reached, else -1. -/
def cpu_lapic_cb (st : MpState) (lapic : LocalApic) (arg : Nat) :
    Option (Int × MpState × List MpEvent) :=
  if lapic.apic_id = arg then some (-1, st, [])
  else if lapic.flags &&& 0x3 = 0 then some (-1, st, [])
  else
    let r := vm_phys_alloc st.phys 1
    if r.1 = 0 then none
    else
      let stack := r.1
      let rsp := (stack + (PAGESIZE - 1)) + KERN_BASE
      let events : List MpEvent :=
        [.allocStack stack,
         .budaWrite rsp cpu_lm_entry_addr st.bsPml4,
         .sendIpi lapic.apic_id 0 IPI_DELMOD_INIT IPI_SHAND_NONE,
         .sleepMs 20,
         .sendIpi lapic.apic_id (AP_BUA_PADDR >>> 12) IPI_DELMOD_STARTUP
           IPI_SHAND_NONE,
         .sleepMs 2,
         .sendIpi lapic.apic_id (AP_BUA_PADDR >>> 12) IPI_DELMOD_STARTUP
           IPI_SHAND_NONE,
         .sleepMs 2,
         .waitBooted]
      let apCount' := st.apCount + 1
      let ret : Int := if MAX_CPUS - 1 ≤ apCount' then 0 else -1
      some (ret, { st with phys := r.2, apCount := apCount' }, events)

/-!
## ACPI MADT enumeration (`src/sys/acpi/acpi.c`)

The byte-walk from `madt + 1` to `madt + hdr.length` in steps of each
entry's own length is modelled as the list of successive entry headers.
The callback is a pure function of the entry and the caller argument. The
local `retval` is declared without an initializer in the source, so the
embedding takes its indeterminate initial value as the explicit parameter
`retval0`.
-/

/-- `struct apic_header`: the per-entry type/length prefix. -/
structure ApicHeader where
  type : Nat
  length : Nat
deriving DecidableEq

/-- The `while (cur < end)` loop of `acpi_read_madt`: for each entry, call
the callback when the type matches (updating `retval`), then test
`retval >= 0` — faithfully, on EVERY iteration, including ones whose entry
did not match. Returns the final status (`-1` when the table is exhausted)
and the list of entries passed to the callback, in order. -/
def madt_loop (type : Nat) (cb : ApicHeader → Nat → Int) (arg : Nat) :
    List ApicHeader → Int → Int × List ApicHeader
  | [], _ => (-1, [])
  | h :: rest, retval =>
    let retval' := if h.type = type then cb h arg else retval
    let calls : List ApicHeader := if h.type = type then [h] else []
    if 0 ≤ retval' then (retval', calls)
    else
      let t := madt_loop type cb arg rest retval'
      (t.1, calls ++ t.2)

/-- `acpi_read_madt(type, cb, arg)`: `-EINVAL` on a null callback, else
the entry walk (`madt` is assumed located; the source panics otherwise).
`retval0` is the indeterminate initial value of the uninitialized local
`retval`. -/
def acpi_read_madt (type : Nat) (cb : Option (ApicHeader → Nat → Int))
    (arg : Nat) (entries : List ApicHeader) (retval0 : Int) :
    Int × List ApicHeader :=
  match cb with
  | none => (-EINVAL, [])
  | some f => madt_loop type f arg entries retval0

/-!
## HPET reference timer (`src/sys/dev/clkdev/hpet.c`)

Register reads are traced; the busy-wait `while (hpet_readq(COUNTER0) <
ticks)` only re-reads the main counter until the target tick count is
reached, and is abstracted as a single `pollUntil ticks` event.
-/

/-- `HPET_GCAP_ID` register offset. -/
def HPET_GCAP_ID : Nat := 0x00

/-- `HPET_GCONF` register offset. -/
def HPET_GCONF : Nat := 0x10

/-- `HPET_COUNTER0` register offset. -/
def HPET_COUNTER0 : Nat := 0xF0

/-- The HPET driver's global state: the `hpet_enabled` flag and the
hardware register file at the moment of the call. -/
structure HpetState where
  enabled : Bool
  regs : Nat → Nat

/-- One observable HPET hardware access. -/
inductive HpetEv
  | readReg (reg : Nat)
  | writeReg (reg val : Nat)
  | pollUntil (ticks : Nat)
deriving DecidableEq

/-- `hpet_sleep(n, units)`: returns immediately (empty trace) while
`hpet_enabled` is false; otherwise reads the capability register for the
clock period, reads the main counter, computes the target
`ticks = counter + n * (units / period)` and busy-polls the counter up to
it. -/
def hpet_sleep (st : HpetState) (n units : Nat) : List HpetEv :=
  if st.enabled = false then []
  else
    let caps := st.regs HPET_GCAP_ID
    let period := caps >>> 32
    let counter := st.regs HPET_COUNTER0
    let ticks := counter + n * (units / period)
    [.readReg HPET_GCAP_ID, .readReg HPET_COUNTER0, .pollUntil ticks]

/-- `hpet_msleep(ms)`: sleep `ms` with the femtosecond-per-millisecond
unit constant. -/
def hpet_msleep (st : HpetState) (ms : Nat) : List HpetEv :=
  hpet_sleep st ms 1000000000000

/-- `hpet_init()`: `-ENODEV` when the "HPET" table is absent; panics
(`none`) when the revision id is zero or the clock period is out of range;
otherwise clears the counter, sets the overall-enable bit and sets
`hpet_enabled`. The query result is the capability-register value visible
through the mapped base. -/
def hpet_init (st : HpetState) (hpetTable : Option Unit) :
    Option (Int × HpetState × List HpetEv) :=
  match hpetTable with
  | none => some (-ENODEV, st, [])
  | some _ =>
    let gcap := st.regs HPET_GCAP_ID % 2 ^ 64
    let clk_period := (gcap >>> 32) % 2 ^ 32
    let rev_id := gcap &&& 0xFF
    if rev_id = 0 then none
    else if clk_period = 0 ∨ clk_period > 0x05F5E100 then none
    else
      some (0, { st with enabled := true },
        [.readReg HPET_GCAP_ID, .writeReg HPET_COUNTER0 0,
         .writeReg HPET_GCONF 1])

/-!
## Concrete states used by the claim theorems
-/

/-- A 4-usable-frame allocator state with only frame 0 allocated. -/
def physEx5 : PhysState :=
  { bitmap := fun i => i == 0
    lastIndex := 0
    highestUsable := 4 * 4096 }

/-- A page-table state whose top-level table at `0x1000` has a present
entry 0 (value `0x2003`: next level at `0x2000`, `P|RW`); every other
table word is 0 and the frame allocator is exhausted (irrelevant: no
allocation happens). -/
def pmapEx3 : PmapState :=
  { phys := { bitmap := fun _ => true, lastIndex := 0, highestUsable := 0 }
    mem := fun q => if q = 0x200 then 0x2003 else 0
    cr3reg := 0x1000 }

/-- A bring-up controller state over `physEx1` with `bs.pml4 = 0` and no
secondary processor counted yet. -/
def mpEx : MpState := { phys := physEx1, bsPml4 := 0, apCount := 0 }

/-- A SELF-shorthand signal descriptor with vector `0x30`. -/
def ipiExSelf : LapicIpi :=
  { dest_id := 3, vector := 0x30, delmod := 0, shorthand := 1
    logical_dest := 0 }

/-- A no-shorthand INIT descriptor whose destination id `0x12A` exceeds 8
bits. -/
def ipiEx10 : LapicIpi :=
  { dest_id := 0x12A, vector := 0, delmod := 5, shorthand := 0
    logical_dest := 0 }

/-- An HPET state that was never initialized (`hpet_enabled = false`). -/
def hpetEx : HpetState := { enabled := false, regs := fun _ => 0 }

/-!
## Supporting lemmas
-/

/-- `__vm_phys_alloc` never modifies the scan cursor: only `bitmap` is
updated on success. -/
theorem __vm_phys_alloc_lastIndex (st : PhysState) (count : Nat) :
    (__vm_phys_alloc st count).2.lastIndex = st.lastIndex := by
  simp only [__vm_phys_alloc]
  split <;> rfl

/-!
## Claim theorems
-/

/-- C1: the claim states that every successful `vm_phys_alloc(count)`
returns `count` frames that were all clear immediately before the call.
This is FALSE on the code: on `physEx1` (frames 0, 2, 4 allocated; 1 and 3
free), `vm_phys_alloc(2)` returns base 12288 (frame 3), yet the second
frame of the run (frame 4) was already allocated before the call, because
`__vm_phys_alloc` never resets `frames_found` when an allocated frame
interrupts a run, so the returned run overlaps allocated memory. -/
theorem vm_phys_alloc_overlap_bug :
    (vm_phys_alloc physEx1 2).1 = 12288 ∧
    physEx1.bitmap (12288 / PAGESIZE) = false ∧
    physEx1.bitmap (12288 / PAGESIZE + 1) = true ∧
    (vm_phys_alloc physEx1 2).2.bitmap (12288 / PAGESIZE + 1) = true := by
  decide

/-- C4: the claim states that a successful `vm_phys_alloc(N)` followed by
`vm_phys_free(base, N)` restores the bitmap exactly. This is FALSE on the
code: on `physEx1`, `vm_phys_alloc(2)` succeeds (base 12288) with frame 4
already allocated beforehand; the subsequent `vm_phys_free(12288, 2)`
clears frame 4, so the round trip loses the prior allocation of frame 4. -/
theorem vm_phys_roundtrip_bug :
    (vm_phys_alloc physEx1 2).1 = 12288 ∧
    physEx1.bitmap 4 = true ∧
    (vm_phys_free (vm_phys_alloc physEx1 2).2
      ((vm_phys_alloc physEx1 2).1) 2).bitmap 4 = false := by
  decide

/-- C5 counterexample: the claim states that after every successful
`vm_phys_alloc` the cursor `last_index` is advanced past the allocated
run. On `physEx5`, `vm_phys_alloc(1)` succeeds with base 4096 (frame 1),
yet the cursor remains 0 instead of being at least 2 (past the run). -/
theorem vm_phys_alloc_cursor_cex :
    (vm_phys_alloc physEx5 1).1 = 4096 ∧
    (vm_phys_alloc physEx5 1).2.lastIndex = 0 ∧
    ¬ (4096 / PAGESIZE + 1 ≤ (vm_phys_alloc physEx5 1).2.lastIndex) := by
  decide

/-- C5 amended: `vm_phys_alloc` never advances the cursor on success —
when the first scan succeeds the call returns its result with
`last_index` unchanged; when the first scan reports 0 the cursor is reset
to zero and the scan is retried exactly once (the call's result is that
single retry), leaving the cursor at zero. -/
theorem vm_phys_alloc_cursor_discipline (st : PhysState) (count : Nat) :
    ((__vm_phys_alloc st count).1 ≠ 0 ∧
      vm_phys_alloc st count = __vm_phys_alloc st count ∧
      (vm_phys_alloc st count).2.lastIndex = st.lastIndex) ∨
    ((__vm_phys_alloc st count).1 = 0 ∧
      vm_phys_alloc st count =
        __vm_phys_alloc
          { (__vm_phys_alloc st count).2 with lastIndex := 0 } count ∧
      (vm_phys_alloc st count).2.lastIndex = 0) := by
  by_cases h : (__vm_phys_alloc st count).1 = 0
  · right
    refine ⟨h, ?_, ?_⟩
    · simp [vm_phys_alloc, h]
    · simp [vm_phys_alloc, h, __vm_phys_alloc_lastIndex]
  · left
    refine ⟨h, ?_, ?_⟩
    · simp [vm_phys_alloc, h]
    · simp [vm_phys_alloc, h, __vm_phys_alloc_lastIndex]

/-- C2: the claim states that `mu_pmap_forkvas` produces the child handle
in its `result` parameter. This is FALSE on the code: the function never
stores to `result` — for every state and every incoming descriptor, the
descriptor comes back bit-for-bit unchanged (on both the success and the
`-ENOMEM` path), so the caller never learns the new top-level table's
address. -/
theorem mu_pmap_forkvas_result_unchanged (k : PmapState) (r : MmuVas) :
    (mu_pmap_forkvas k r).2.2 = r := by
  simp only [mu_pmap_forkvas]
  split <;> rfl

/-- C3: the claim states that `mu_pmap_map` descends all four levels and
writes the leaf-level entry, never a higher-level one. This is FALSE on
the code: on `pmapEx3` (top-level entry 0 present, pointing at the table
at `0x2000`, with nothing below it), `pmap_get_level` RETURNS that
next-level table as soon as it sees the present bit instead of continuing
the descent, so `mu_pmap_map` reports success and stores the mapping
`pa | flags` into word `0x2000/8 + 0 = 1024` — an entry of the level-3
table, three levels above the leaf — while allocating no missing
intermediate tables (the allocator state is untouched). -/
theorem mu_pmap_map_highlevel_write_bug :
    (mu_pmap_map pmapEx3 (some ⟨0x1000⟩) 0x5000 0
      ⟨false, false, false⟩ 0).1 = 0 ∧
    pmapEx3.mem (0x1000 / 8 + pmap_get_index 0 2) &&& PTE_P = 1 ∧
    (mu_pmap_map pmapEx3 (some ⟨0x1000⟩) 0x5000 0
      ⟨false, false, false⟩ 0).2.mem (0x2000 / 8 + pmap_get_index 0 0) =
      (0x5000 ||| (PTE_P ||| PTE_NX)) ∧
    (mu_pmap_map pmapEx3 (some ⟨0x1000⟩) 0x5000 0
      ⟨false, false, false⟩ 0).2.phys = pmapEx3.phys :=
  ⟨by decide, by decide, by decide, rfl⟩

/-- C6: a processor record whose identifier equals the caller's own id, or
whose flags mark it not online-capable (`flags & 0x3 == 0`), makes
`cpu_lapic_cb` return the continue value -1 immediately: no stack
allocation, no bring-up-descriptor write, no INIT or STARTUP signal, and
the controller state is unchanged. -/
theorem cpu_lapic_cb_skips (st : MpState) (lapic : LocalApic) (arg : Nat)
    (h : lapic.apic_id = arg ∨ lapic.flags &&& 0x3 = 0) :
    cpu_lapic_cb st lapic arg = some (-1, st, []) := by
  rcases h with h | h
  · simp [cpu_lapic_cb, h]
  · by_cases h2 : lapic.apic_id = arg
    · simp [cpu_lapic_cb, h2]
    · simp [cpu_lapic_cb, h2, h]

/-- C6 witness: a record with id 5 and flags 0 (not online-capable) under
primary id 7 is skipped with no events. -/
theorem cpu_lapic_cb_skips_witness :
    cpu_lapic_cb mpEx ⟨5, 0⟩ 7 = some (-1, mpEx, []) :=
  cpu_lapic_cb_skips mpEx ⟨5, 0⟩ 7 (Or.inr (by decide))

/-- C7: `lapic_send_ipi` with the SELF shorthand on an x2APIC-mode
controller performs exactly one hardware access — the dedicated self-IPI
MSR write of the vector — and returns success: no read or write of either
ICR half and no delivery-status poll, and the descriptor is untouched. -/
theorem lapic_send_ipi_self_x2apic (mcb : Mcb) (regs : Nat → Nat)
    (p : LapicIpi) (h1 : mcb.has_x2apic = true)
    (h2 : p.shorthand = IPI_SHAND_SELF) :
    lapic_send_ipi mcb regs (some p) =
      (0, some p, [.wrmsrSelfIpi p.vector]) := by
  simp [lapic_send_ipi, h1, h2]

/-- C7 witness: the concrete SELF descriptor on an x2APIC controller. -/
theorem lapic_send_ipi_self_x2apic_witness :
    lapic_send_ipi ⟨true⟩ (fun _ => 0) (some ipiExSelf) =
      (0, some ipiExSelf, [.wrmsrSelfIpi 0x30]) :=
  lapic_send_ipi_self_x2apic ⟨true⟩ (fun _ => 0) ipiExSelf rfl rfl

/-- C10: in xAPIC (legacy) mode `lapic_send_ipi` mutates the caller's
descriptor: the returned descriptor is the input with `dest_id`
overwritten by its low 8 bits; in the x2APIC SELF-shorthand path the
descriptor is returned unmodified. -/
theorem lapic_send_ipi_descriptor_mutation (mcb : Mcb) (regs : Nat → Nat)
    (p : LapicIpi) :
    (mcb.has_x2apic = false →
      (lapic_send_ipi mcb regs (some p)).2.1 =
        some { p with dest_id := p.dest_id &&& 0xFF }) ∧
    (mcb.has_x2apic = true → p.shorthand = IPI_SHAND_SELF →
      (lapic_send_ipi mcb regs (some p)).2.1 = some p) := by
  constructor
  · intro h
    simp [lapic_send_ipi, h]
  · intro h1 h2
    simp [lapic_send_ipi, h1, h2]

/-- C10 witness: on an xAPIC controller, `dest_id = 0x12A` comes back as
its low byte. -/
theorem lapic_send_ipi_descriptor_mutation_witness :
    (lapic_send_ipi ⟨false⟩ (fun _ => 0) (some ipiEx10)).2.1 =
      some { ipiEx10 with dest_id := ipiEx10.dest_id &&& 0xFF } :=
  (lapic_send_ipi_descriptor_mutation ⟨false⟩ (fun _ => 0) ipiEx10).1 rfl

/-- C8: the claim states that entries whose type does not match the
selector never cause early termination and that the callback alone decides
when enumeration stops. This is FALSE on the code: `retval` is read before
any callback has initialized it, so with an indeterminate initial value of
0 and a table whose first entry does not match (type 2 against selector
1), the walk stops at that first non-matching entry and returns the junk
value 0 — the matching entry that follows is never delivered to the
callback. -/
theorem acpi_read_madt_uninit_bug :
    acpi_read_madt 1 (some (fun _ _ => -1)) 0 [⟨2, 8⟩, ⟨1, 8⟩] 0 =
      (0, []) := by
  decide

/-- C9: `hpet_msleep(ms)` called while the `hpet_enabled` flag is still
false (i.e. before `hpet_init` has completed successfully) returns
immediately: no register read, no counter poll, no waiting — an empty
hardware trace for every millisecond value. -/
theorem hpet_msleep_disabled_noop (st : HpetState) (ms : Nat)
    (h : st.enabled = false) : hpet_msleep st ms = [] := by
  simp [hpet_msleep, hpet_sleep, h]

/-- C9 witness: a 20 ms settle delay on an uninitialized HPET is a no-op. -/
theorem hpet_msleep_disabled_noop_witness : hpet_msleep hpetEx 20 = [] :=
  hpet_msleep_disabled_noop hpetEx 20 rfl

end RV7
